import Mathlib

/-
Verification of the ai_legal_assistant repository: a shallow embedding of
the tool-calling control loop (agent_workflow.py), the capability functions
(tools.py) and the /search response-parsing path (main.py, models.py),
together with proofs of the spec's testable properties.

Machine strings are modelled as Lean `String`s (lists of characters);
Python substring / prefix tests become `List.isInfixOf` / `List.isPrefixOf`
over the character data.  Network I/O is passed in as explicit function
parameters (`Option` of a search runner, a fetch oracle, an API oracle), so
every capability is a pure function of its inputs, exactly as the loop sees
them.
-/

namespace LegalAssistant

/-! ## String primitives (Python `str` operations used by the source) -/

/-- Python `s.lower()` (ASCII case folding, which is all the source's
lookup keys need). -/
def lowerStr (s : String) : String := ⟨s.data.map Char.toLower⟩

/-- `needle.isPrefixOf hay || containsAux needle (tail hay)`: does `needle`
occur as a contiguous run somewhere in `hay`? -/
def containsAux (needle : List Char) : List Char → Bool
  | [] => needle.isEmpty
  | c :: rest => needle.isPrefixOf (c :: rest) || containsAux needle rest

/-- Python `needle in hay` on strings: substring containment. -/
def containsStr (hay needle : String) : Bool := containsAux needle.data hay.data

/-- Python `s.startswith(p)`; used to state the "begins with Error:" contracts. -/
def strStartsWith (s p : String) : Bool := p.data.isPrefixOf s.data

/-- Python `s[:n]`: the first `n` characters. -/
def strTake (s : String) (n : Nat) : String := ⟨s.data.take n⟩

/-- Python `s.strip()`. -/
def trimStr (s : String) : String :=
  ⟨((s.data.dropWhile Char.isWhitespace).reverse.dropWhile Char.isWhitespace).reverse⟩

/-- Python `' '.join(parts)`. -/
def joinSpace : List String → String
  | [] => ""
  | [s] => s
  | s :: rest => s ++ " " ++ joinSpace rest

/-- A regex `\w` character: letters, digits and underscore (ASCII). -/
def wordChar (c : Char) : Bool := c.isAlphanum || c == '_'

/-- `re.search(r'(\w+)', query)`: the first maximal run of word characters,
`none` when the string has no word character. -/
def firstWordRun (s : String) : Option String :=
  let run := (s.data.dropWhile (fun c => !wordChar c)).takeWhile wordChar
  if run.isEmpty then none else some ⟨run⟩

/-- Python `str.title()`: a letter is uppercased when the previous character
is not a letter, lowercased otherwise. -/
def titleAux : Bool → List Char → List Char
  | _, [] => []
  | prevAlpha, c :: cs =>
    (if c.isAlpha then (if prevAlpha then c.toLower else c.toUpper) else c) ::
      titleAux c.isAlpha cs

def titleStr (s : String) : String := ⟨titleAux false s.data⟩

/-! ## models.py -/

/-- `CompanyFiling` (models.py): the Structured Record.  `applicable_law`
defaults to `None` and `relevant_clause` to `"N/A"`, as in the pydantic
model; every other field is a required `str`. -/
structure CompanyFiling where
  contract_name : String
  company_name : String
  description : String
  filing_date : String
  source_of_information : String
  country : String
  language : String
  applicable_law : Option String := none
  relevant_clause : Option String := some "N/A"
  document_url : String
deriving DecidableEq, Repr

/-- `FilingResponse` (models.py): the response envelope of `/search`. -/
structure FilingResponse where
  success : Bool
  data : Option CompanyFiling := none
  error : Option String := none
deriving DecidableEq, Repr

/-! ## A JSON value model

`json.loads` output and the payload `PydanticOutputParser` validates.  An
object is an association list of fields (the source's payloads never rely
on duplicate keys). -/

inductive JValue where
  | null
  | bool (b : Bool)
  | num (n : Int)
  | str (s : String)
  | arr (elems : List JValue)
  | obj (fields : List (String × JValue))

/-- Python `d.get(key)` on a JSON object. -/
def getField (fields : List (String × JValue)) (key : String) : Option JValue :=
  (fields.find? (fun p => p.1 == key)).map (·.2)

/-- A final answer as `search_filing` sees it: the raw text of the last
agent message, together with the result of JSON-parsing that text (`none`
when the text is not JSON).  JSON parsing itself is the standard library's
`json.loads`, passed in as data. -/
structure AnswerContent where
  raw : String
  json : Option JValue

/-! ## Strategy (a): `parser.parse` — pydantic validation of `CompanyFiling`

A required `str` field must be present and be a JSON string (pydantic v2
does not coerce numbers to strings); empty strings pass.  `Optional[str]`
fields accept `null` and fall back to their declared defaults when the key
is absent. -/

def reqStr (fields : List (String × JValue)) (key : String) : Except String String :=
  match getField fields key with
  | some (.str s) => .ok s
  | some _ => .error (key ++ ": input should be a valid string")
  | none => .error (key ++ ": field required")

def optStrOrNull (fields : List (String × JValue)) (key : String) (dflt : Option String) :
    Except String (Option String) :=
  match getField fields key with
  | none => .ok dflt
  | some .null => .ok none
  | some (.str s) => .ok (some s)
  | some _ => .error (key ++ ": input should be a valid string")

def pydanticValidate (fields : List (String × JValue)) : Except String CompanyFiling := do
  let contract_name ← reqStr fields "contract_name"
  let company_name ← reqStr fields "company_name"
  let description ← reqStr fields "description"
  let filing_date ← reqStr fields "filing_date"
  let source_of_information ← reqStr fields "source_of_information"
  let country ← reqStr fields "country"
  let language ← reqStr fields "language"
  let applicable_law ← optStrOrNull fields "applicable_law" none
  let relevant_clause ← optStrOrNull fields "relevant_clause" (some "N/A")
  let document_url ← reqStr fields "document_url"
  pure { contract_name, company_name, description, filing_date,
         source_of_information, country, language, applicable_law,
         relevant_clause, document_url }

/-- `parser.parse(final_response_message.content)` (main.py line 83):
the payload must be a JSON object validating as `CompanyFiling`. -/
def pydanticParse (c : AnswerContent) : Except String CompanyFiling :=
  match c.json with
  | some (.obj fields) => pydanticValidate fields
  | some _ => .error "input should be a valid dictionary"
  | none => .error "invalid json object in the output"

/-! ## Strategy (b): the manual reconciliation block (main.py lines 96-122) -/

/-- `raw_json.get(k1, raw_json.get(k2, dflt))`. -/
def used2 (fields : List (String × JValue)) (k1 k2 dflt : String) : JValue :=
  match getField fields k1 with
  | some v => v
  | none =>
    match getField fields k2 with
    | some v => v
    | none => .str dflt

/-- `raw_json.get(k, dflt)`. -/
def used1 (fields : List (String × JValue)) (k dflt : String) : JValue :=
  match getField fields k with
  | some v => v
  | none => .str dflt

/-- A fetched value must be a string: a non-string value makes the Python
block raise (`TypeError` on `"sec.gov" in value`, or a pydantic
`ValidationError` in `CompanyFiling(**structured_data)`), which the
enclosing `except` turns into strategy-(b) failure. -/
def asStr : JValue → Except String String
  | .str s => .ok s
  | _ => .error "value is not a string"

/-- The `structured_data` reconstruction of main.py lines 101-116.
`json.loads` failing (`c.json = none`), a non-object payload
(`AttributeError` on `.get`) and a non-string fetched value all land in the
`except` clause, i.e. are strategy-(b) failures. -/
def manualParse (c : AnswerContent) : Except String CompanyFiling :=
  match c.json with
  | none => .error "raw response is not valid JSON"
  | some (.obj fields) =>
    match asStr (used2 fields "filing_type" "contract_name" "Unknown"),
          asStr (used1 fields "company_name" "Unknown"),
          asStr (used2 fields "summary" "description" "No description available"),
          asStr (used1 fields "filing_date" "Unknown"),
          asStr (used1 fields "document_url" "") with
    | .ok cn, .ok comp, .ok desc, .ok fd, .ok durl =>
      .ok { contract_name := cn
            company_name := comp
            description := desc
            filing_date := fd
            source_of_information :=
              if containsStr durl "sec.gov" then "SEC EDGAR" else "Unknown"
            country :=
              if containsStr durl "sec.gov" then "United States" else "Unknown"
            language := "English"
            applicable_law := some "Securities Exchange Act of 1934"
            relevant_clause := some "N/A"
            document_url := durl }
    | _, _, _, _, _ => .error "failed to build CompanyFiling from the raw JSON"
  | some _ => .error "raw response is not a JSON object"

/-- The parsing half of `search_filing` (main.py lines 82-131): strategy
(a), then strategy (b), then the failure envelope carrying the raw text. -/
def parseFinalResponse (c : AnswerContent) : FilingResponse :=
  match pydanticParse c with
  | .ok parsed => { success := true, data := some parsed }
  | .error parseError =>
    match manualParse c with
    | .ok manual => { success := true, data := some manual }
    | .error _ =>
      { success := false
        error := some ("Failed to parse structured output: " ++ parseError ++
          ". Raw response: " ++ c.raw) }

/-! ## tools.py — the Capability Provider

The Serper search backend is `none` when `SERPER_API_KEY` is absent (or the
placeholder value), and otherwise a runner returning either result text or,
for a raised exception, its message (`Except.error`).  HTTP fetches are an
explicit oracle from URL to outcome. -/

/-- `general_web_search` (tools.py lines 15-23). -/
def general_web_search (wrapper : Option (String → Except String String))
    (query : String) : String :=
  match wrapper with
  | none => "Error: SERPER_API_KEY not configured. Please set SERPER_API_KEY in your .env file."
  | some run =>
    match run query with
    | .ok r => r
    | .error e =>
      "Error: Search failed - " ++ e ++ ". Please check your SERPER_API_KEY configuration."

/-- `official_site_search` (tools.py lines 25-33). -/
def official_site_search (wrapper : Option (String → Except String String))
    (query site : String) : String :=
  match wrapper with
  | none => "Error: SERPER_API_KEY not configured. Cannot search " ++ site ++ "."
  | some run =>
    match run ("site:" ++ site ++ " " ++ query) with
    | .ok r => r
    | .error e =>
      "Error: Search failed for " ++ site ++ " - " ++ e ++
        ". Please check your SERPER_API_KEY configuration."

/-- The hardcoded direct SEC EDGAR URLs of `sec_edgar_search`. -/
def secUrls : List (String × String) :=
  [("microsoft", "https://www.sec.gov/cgi-bin/browse-edgar?action=getcompany&CIK=0000789019&type=10-K&dateb=&owner=exclude&count=10"),
   ("apple", "https://www.sec.gov/cgi-bin/browse-edgar?action=getcompany&CIK=0000320193&type=10-K&dateb=&owner=exclude&count=10"),
   ("amazon", "https://www.sec.gov/cgi-bin/browse-edgar?action=getcompany&CIK=0001018724&type=10-K&dateb=&owner=exclude&count=10"),
   ("google", "https://www.sec.gov/cgi-bin/browse-edgar?action=getcompany&CIK=0001652044&type=10-K&dateb=&owner=exclude&count=10")]

/-- The generic fallback message of `sec_edgar_search` (tools.py line 67). -/
def secManualSearchMsg (query : String) : String :=
  "Real SEC EDGAR search attempted for: " ++ query ++
    ". Please visit https://www.sec.gov/edgar/searchedgar/companysearch for manual search."

/-- `sec_edgar_search` (tools.py lines 35-70): try the site-restricted
search when a wrapper exists and its result carries no "Error:"; otherwise
fall back to the first word of the query against the hardcoded URL table. -/
def sec_edgar_search (wrapper : Option (String → Except String String))
    (query : String) : String :=
  let direct : String :=
    match firstWordRun query with
    | some company =>
      let cl := lowerStr company
      match (secUrls.find? (fun p => p.1 == cl)).map (·.2) with
      | some url => "Found SEC EDGAR filings for " ++ titleStr cl ++ ". Direct search URL: " ++ url
      | none => secManualSearchMsg query
    | none => secManualSearchMsg query
  match wrapper with
  | none => direct
  | some run =>
    let result := official_site_search (some run) query "sec.gov"
    if containsStr result "Error:" then direct else result

/-- `sedar_plus_search` (tools.py lines 72-74). -/
def sedar_plus_search (wrapper : Option (String → Except String String))
    (query : String) : String :=
  official_site_search wrapper query "sedarplus.ca"

/-- `cvm_empresas_net_search` (tools.py lines 76-78). -/
def cvm_empresas_net_search (wrapper : Option (String → Except String String))
    (query : String) : String :=
  official_site_search wrapper query "cvm.gov.br"

/-! ### Document fetch -/

/-- An HTML document: text nodes and tagged elements with children.  What
BeautifulSoup parses the response body into, as far as the source uses it. -/
inductive Html where
  | text (s : String)
  | elem (tag : String) (children : List Html)

mutual

/-- `soup.stripped_strings` after `decompose()` of script / style / nav /
footer / header subtrees: each text node stripped, whitespace-only nodes
skipped, pruned subtrees contributing nothing. -/
def strippedStrings : Html → List String
  | .text s => let t := trimStr s; if t = "" then [] else [t]
  | .elem tag children =>
    if tag ∈ ["script", "style", "nav", "footer", "header"] then []
    else strippedStringsList children

def strippedStringsList : List Html → List String
  | [] => []
  | h :: hs => strippedStrings h ++ strippedStringsList hs

end

/-- `' '.join(t.strip() for t in soup.stripped_strings)` (tools.py line 97). -/
def visibleText (body : Html) : String := joinSpace (strippedStrings body)

/-- The outcome of `requests.get(url, ...)`: a raised `RequestException`
(connection failure / timeout), or a response with status code, a
`Content-Type` header and a parsed body. -/
inductive FetchOutcome where
  | failure (reason : String)
  | response (status : Nat) (contentType : String) (body : Html)

/-- `str(requests.HTTPError)` as produced by `raise_for_status` on a
4xx/5xx response (modelled text; only its occurrence after the "Error:"
marker matters). -/
def httpStatusErrorReason (status : Nat) (url : String) : String :=
  toString status ++ " Error for url: " ++ url

/-- `read_document_from_url` (tools.py lines 80-103).  `raise_for_status`
raises (a `RequestException`) for every status of 400 and above; a
text/html response yields the visible text truncated to 8000 characters;
any other content type yields an error string. -/
def read_document_from_url (fetch : String → FetchOutcome) (url : String) : String :=
  match fetch url with
  | .failure reason => "Error: Could not retrieve URL. Reason: " ++ reason
  | .response status contentType body =>
    if 400 ≤ status then
      "Error: Could not retrieve URL. Reason: " ++ httpStatusErrorReason status url
    else if containsStr contentType "text/html" then
      strTake (visibleText body) 8000
    else
      "Error: Content type is not text/html. It is " ++ contentType ++ ". Cannot process."

/-! ### Real SEC search -/

/-- The CIK table of `real_sec_search` (tools.py lines 116-126). -/
def cikMapping : List (String × String) :=
  [("microsoft", "0000789019"), ("apple", "0000320193"), ("amazon", "0001018724"),
   ("google", "0001652044"), ("alphabet", "0001652044"), ("tesla", "0001318605"),
   ("netflix", "0001065280"), ("meta", "0001326801"), ("facebook", "0001326801")]

/-- The outcome of the data.sec.gov lookup inside `real_sec_search`:
a 200 response (with the `entityName` of its JSON when present), a non-200
status, or a raised exception. -/
inductive ApiResult where
  | ok (entityName : Option String)
  | status (code : Nat)
  | exc (msg : String)

/-- `real_sec_search` (tools.py lines 105-156). -/
def real_sec_search (api : String → ApiResult) (company_name : String) : String :=
  let cl := lowerStr company_name
  match (cikMapping.find? (fun p => p.1 == cl)).map (·.2) with
  | some cik =>
    let filingsUrl := "https://www.sec.gov/cgi-bin/browse-edgar?action=getcompany&CIK=" ++
      cik ++ "&type=10-K&dateb=&owner=exclude&count=10"
    let companyUrl := "https://data.sec.gov/submissions/CIK" ++ cik ++ ".json"
    match api companyUrl with
    | .ok entityName =>
      "Real SEC search successful for " ++ entityName.getD (titleStr company_name) ++
        ". Company CIK: " ++ cik ++ ". Filings URL: " ++ filingsUrl
    | .status _ =>
      "Real SEC search attempted for " ++ company_name ++ ". Filings URL: " ++ filingsUrl
    | .exc e => "Real SEC search failed: " ++ e
  | none =>
    "Real SEC search attempted for " ++ company_name ++
      ". Please visit https://www.sec.gov/edgar/searchedgar/companysearch for manual search."

/-! ### Fallback mock search -/

/-- One entry of the mock table of `fallback_search` (all values are plain
strings in the source dictionaries). -/
structure MockFiling where
  contract_name : String
  company_name : String
  description : String
  filing_date : String
  source_of_information : String
  country : String
  language : String
  applicable_law : String
  relevant_clause : String
  document_url : String

/-- `mock_responses` (tools.py lines 166-227), in the source's insertion
order. -/
def mockResponses : List (String × MockFiling) :=
  [("microsoft",
    { contract_name := "Form 10-K"
      company_name := "Microsoft Corporation"
      description := "Annual report for fiscal year ending June 30, 2024. This comprehensive report includes financial statements, management discussion and analysis, risk factors, and business segment information."
      filing_date := "2024-07-25"
      source_of_information := "SEC EDGAR"
      country := "United States"
      language := "English"
      applicable_law := "Securities Exchange Act of 1934"
      relevant_clause := "Item 1A. Risk Factors"
      document_url := "https://www.sec.gov/Archives/edgar/data/789019/000095017024087843/msft-20240630.htm" }),
   ("apple",
    { contract_name := "Form 10-K"
      company_name := "Apple Inc."
      description := "Annual report for fiscal year ending September 30, 2024. Contains comprehensive financial information, business operations, and risk assessment."
      filing_date := "2024-10-28"
      source_of_information := "SEC EDGAR"
      country := "United States"
      language := "English"
      applicable_law := "Securities Exchange Act of 1934"
      relevant_clause := "Item 1A. Risk Factors"
      document_url := "https://www.sec.gov/Archives/edgar/data/320193/000032019324000106/aapl-20240928.htm" }),
   ("petrobras",
    { contract_name := "Formulário de Referência"
      company_name := "Petrobras"
      description := "Reference form for the year 2024 containing comprehensive company information and financial data."
      filing_date := "2024-03-15"
      source_of_information := "CVM Empresas.NET"
      country := "Brazil"
      language := "Portuguese"
      applicable_law := "Lei 6.404/76"
      relevant_clause := "Fatores de Risco"
      document_url := "https://www.cvm.gov.br/empresas/empresas-net/empresas-net" }),
   ("amazon",
    { contract_name := "Form 10-K"
      company_name := "Amazon.com Inc."
      description := "Annual report for fiscal year ending December 31, 2023. Comprehensive overview of Amazon's business operations, financial performance, and strategic initiatives."
      filing_date := "2024-02-01"
      source_of_information := "SEC EDGAR"
      country := "United States"
      language := "English"
      applicable_law := "Securities Exchange Act of 1934"
      relevant_clause := "Item 1A. Risk Factors"
      document_url := "https://www.sec.gov/Archives/edgar/data/1018724/000101872424000004/amzn-20231231.htm" }),
   ("google",
    { contract_name := "Form 10-K"
      company_name := "Alphabet Inc."
      description := "Annual report for fiscal year ending December 31, 2023. Detailed analysis of Google's parent company operations, financial results, and future outlook."
      filing_date := "2024-02-02"
      source_of_information := "SEC EDGAR"
      country := "United States"
      language := "English"
      applicable_law := "Securities Exchange Act of 1934"
      relevant_clause := "Item 1A. Risk Factors"
      document_url := "https://www.sec.gov/Archives/edgar/data/1652044/000165204424000004/googl-20231231.htm" })]

/-- The canned summary `fallback_search` returns on a match (tools.py
line 232). -/
def foundFilingMsg (d : MockFiling) : String :=
  "Found filing for " ++ d.company_name ++ ": " ++ d.contract_name ++
    " filed on " ++ d.filing_date ++ ". Document URL: " ++ d.document_url

/-- The no-match string of `fallback_search` (tools.py line 234). -/
def noMatchMsg (query : String) : String :=
  "Mock search completed for: " ++ query ++ ". No specific filing found in mock database."

/-- The `for company, data in mock_responses.items()` scan: the first entry
whose key occurs in the lowercased query. -/
def findMock (queryLower : String) : List (String × MockFiling) → Option MockFiling
  | [] => none
  | (company, d) :: rest =>
    if containsStr queryLower company then some d else findMock queryLower rest

/-- `fallback_search` (tools.py lines 158-234). -/
def fallback_search (query : String) : String :=
  match findMock (lowerStr query) mockResponses with
  | some d => foundFilingMsg d
  | none => noMatchMsg query

/-! ## agent_workflow.py — the Control Loop -/

/-- One tool-invocation request of an assistant message: name, argument
payload and correlation id. -/
structure ToolCall where
  name : String
  args : String
  id : String
deriving DecidableEq, Repr

/-- A turn of the Conversation: `HumanMessage`, the agent's `AIMessage`
(content plus tool calls), or a `ToolMessage` carrying `tool_call_id`. -/
inductive Msg where
  | user (content : String)
  | assistant (content : String) (tool_calls : List ToolCall)
  | toolResult (tool_call_id : String) (content : String)
deriving DecidableEq, Repr

/-- The name-to-function view of the `tools` list of agent_workflow.py. -/
abbrev ToolRegistry := List (String × (String → String))

/-- The `tools` list of agent_workflow.py lines 15-23, in source order,
with its network dependencies passed in. -/
def tools (wrapper : Option (String → Except String String))
    (api : String → ApiResult) (fetch : String → FetchOutcome) : ToolRegistry :=
  [("search_sec_edgar", sec_edgar_search wrapper),
   ("real_sec_search", real_sec_search api),
   ("search_sedar_plus", sedar_plus_search wrapper),
   ("search_cvm_empresas_net", cvm_empresas_net_search wrapper),
   ("read_document_from_url", read_document_from_url fetch),
   ("general_web_search", general_web_search wrapper),
   ("fallback_search", fallback_search)]

/-- `FilingAgent.call_tools` (agent_workflow.py lines 112-124): for each
requested call, `next((t for t in self.tools if t.name == tool_name), None)`;
a resolved call appends one `ToolMessage` with the call's id, an
unresolved one (`tool_func` is `None`) appends nothing. -/
def call_tools (registry : ToolRegistry) : List ToolCall → List Msg
  | [] => []
  | call :: rest =>
    match registry.find? (fun t => t.1 == call.name) with
    | some t => Msg.toolResult call.id (t.2 call.args) :: call_tools registry rest
    | none => call_tools registry rest

/-- The two graph nodes of `_create_graph` ("agent" and "tools"; END is an
edge target, not a node). -/
inductive Node where
  | agent
  | tools
deriving DecidableEq, Repr

/-- The values `should_continue` can route to. -/
inductive Route where
  | toAgent
  | toTools
  | toEnd
deriving DecidableEq, Repr

/-- `FilingAgent.should_continue` (agent_workflow.py lines 100-105).  The
last message is always the agent's `AIMessage` when this runs (the
conditional edge fires right after the agent node); the `ToolMessage`
branch is dead, and a `HumanMessage` (no `tool_calls` attribute) would
raise — both are modelled by their source lines, the user case by the
END default the raised error would prevent anyway. -/
def should_continue (msgs : List Msg) : Route :=
  match msgs.getLast? with
  | some (.toolResult _ _) => .toAgent
  | some (.assistant _ calls) => if calls.isEmpty then .toEnd else .toTools
  | _ => .toEnd

/-- `state['messages'][-1].tool_calls` as `call_tools` reads it. -/
def lastToolCalls (msgs : List Msg) : List ToolCall :=
  match msgs.getLast? with
  | some (.assistant _ calls) => calls
  | _ => []

/-- The reasoning capability: from the conversation, an `AIMessage`
(content and tool-invocation requests).  `call_agent` appends exactly this
message. -/
abbrev Decide := List Msg → String × List ToolCall

/-- How a compiled-graph run ends: reaching END, exhausting the
framework's recursion limit (`GraphRecursionError`), or a conditional edge
resolving to a name outside the `{"tools": "tools", END: END}` mapping
(dead here, kept for faithfulness). -/
inductive RunOutcome where
  | finished (msgs : List Msg)
  | recursionError (msgs : List Msg)
  | invalidRoute (msgs : List Msg)

/-- The compiled graph's executor: entry point "agent"; after "agent" the
conditional edge `should_continue`; after "tools" the unconditional edge
back to "agent" (agent_workflow.py lines 87-98).  `fuel` is the number of
steps the framework still allows; each node execution consumes one, and
exhaustion is `GraphRecursionError`.  Returns the executed-node trace and
the outcome. -/
def runGraph (decide : Decide) (registry : ToolRegistry) :
    Nat → Node → List Msg → List Node × RunOutcome
  | 0, _, msgs => ([], .recursionError msgs)
  | fuel + 1, .agent, msgs =>
    let step := decide msgs
    let msgs' := msgs ++ [Msg.assistant step.1 step.2]
    match should_continue msgs' with
    | .toEnd => ([.agent], .finished msgs')
    | .toTools =>
      let rest := runGraph decide registry fuel .tools msgs'
      (.agent :: rest.1, rest.2)
    | .toAgent => ([.agent], .invalidRoute msgs')
  | fuel + 1, .tools, msgs =>
    let msgs' := msgs ++ call_tools registry (lastToolCalls msgs)
    let rest := runGraph decide registry fuel .agent msgs'
    (.tools :: rest.1, rest.2)

/-- langgraph's default `recursion_limit`: `search_filing` invokes the
graph with no `recursion_limit` override. -/
def recursionLimit : Nat := 25

/-- `final_state['messages'][-1].content`. -/
def lastMessageContent (msgs : List Msg) : String :=
  match msgs.getLast? with
  | some (.user c) => c
  | some (.assistant c _) => c
  | some (.toolResult _ c) => c
  | none => ""

/-! ## main.py — the Boundary Layer -/

/-- What the `/search` endpoint sends the caller: a `FilingResponse`
envelope, or an `HTTPException` (status plus detail) raised from the outer
`except` (main.py lines 133-138). -/
inductive HttpOutcome where
  | ok (response : FilingResponse)
  | httpError (status : Nat) (detail : String)

/-- `str(GraphRecursionError)` for the default limit (modelled from the
langgraph text; only reaching this branch matters to the claims). -/
def graphRecursionErrorMsg : String :=
  "Recursion limit of 25 reached without hitting a stop condition. " ++
    "You can increase the limit by setting the recursion_limit config key."

/-- The framework's error for a conditional-edge result outside the edge
mapping (dead branch, modelled for totality). -/
def invalidRouteMsg : String :=
  "Branch condition returned unknown or invalid node name"

/-- Does the endpoint outcome carry a `FilingResponse` envelope at all (as
opposed to a raised `HTTPException`)? -/
def isOkEnvelope : HttpOutcome → Bool
  | .ok _ => true
  | .httpError _ _ => false

/-- `search_filing` (main.py lines 51-138): run a fresh graph on the query;
on normal completion parse the last message (strategies (a) and (b), then
the failure envelope); an exception out of `invoke` — in particular
`GraphRecursionError` — is caught by the outer handler and re-raised as
`HTTPException(500, "Internal server error: ...")`.  `jsonParse` is
`json.loads` on the raw text, passed in as data. -/
def search_filing (jsonParse : String → Option JValue) (decide : Decide)
    (registry : ToolRegistry) (query : String) : HttpOutcome :=
  match runGraph decide registry recursionLimit .agent [Msg.user query] with
  | (_, .finished msgs) =>
    let content := lastMessageContent msgs
    .ok (parseFinalResponse { raw := content, json := jsonParse content })
  | (_, .recursionError _) =>
    .httpError 500 ("Internal server error: " ++ graphRecursionErrorMsg)
  | (_, .invalidRoute _) =>
    .httpError 500 ("Internal server error: " ++ invalidRouteMsg)

/-! ## Helper lemmas -/

theorem containsAux_append_self (n : List Char) :
    ∀ pre : List Char, containsAux n (pre ++ n) = true := by
  intro pre
  induction pre with
  | nil =>
    cases n with
    | nil => rfl
    | cons c r =>
      simp only [List.nil_append, containsAux, Bool.or_eq_true]
      exact Or.inl (( List.isPrefixOf_iff_prefix).mpr (List.prefix_refl _))
  | cons p ps ih =>
    simp only [List.cons_append, containsAux, Bool.or_eq_true]
    exact Or.inr ih

theorem contains_append_right (a b : String) : containsStr (a ++ b) b = true := by
  unfold containsStr
  rw [String.data_append]
  exact containsAux_append_self b.data a.data

theorem startsWith_append_left {p a : String} (b : String)
    (h : strStartsWith a p = true) : strStartsWith (a ++ b) p = true := by
  unfold strStartsWith at h ⊢
  rw [String.data_append]
  rw [ List.isPrefixOf_iff_prefix] at h ⊢
  exact h.trans (List.prefix_append _ _)

theorem should_continue_concat (msgs : List Msg) (a : String) (calls : List ToolCall) :
    should_continue (msgs ++ [Msg.assistant a calls]) =
      if calls.isEmpty then Route.toEnd else Route.toTools := by
  simp [should_continue, List.getLast?_concat]

theorem runGraph_finished_trace (decide : Decide) (registry : ToolRegistry) :
    ∀ (fuel : Nat) (node : Node) (msgs : List Msg) (trace : List Node) (final : List Msg),
      runGraph decide registry fuel node msgs = (trace, RunOutcome.finished final) →
      trace.head? = some node ∧
      List.Chain' (fun a b => a = Node.tools → b = Node.agent) trace ∧
      trace.getLast? = some Node.agent := by
  intro fuel
  induction fuel with
  | zero =>
    intro node msgs trace final h
    simp [runGraph] at h
  | succ fuel ih =>
    intro node msgs trace final h
    cases node with
    | agent =>
      simp only [runGraph] at h
      rcases hsc : should_continue (msgs ++ [Msg.assistant (decide msgs).1 (decide msgs).2]) with _ | _ | _ <;>
        rw [hsc] at h
      · simp at h
      · rcases hr : runGraph decide registry fuel Node.tools
            (msgs ++ [Msg.assistant (decide msgs).1 (decide msgs).2]) with ⟨tr, out⟩
        rw [hr] at h
        simp only [Prod.mk.injEq] at h
        obtain ⟨htrace, hout⟩ := h
        obtain ⟨hhead, hchain, hlast⟩ := ih Node.tools _ tr final (by rw [hr, hout])
        subst htrace
        refine ⟨rfl, ?_, ?_⟩
        · rw [List.chain'_cons']
          exact ⟨fun y _ hcontra => absurd hcontra (by simp), hchain⟩
        · cases tr with
          | nil => simp at hhead
          | cons t ts =>
            rw [List.getLast?_cons_cons]
            exact hlast
      · simp only [Prod.mk.injEq] at h
        obtain ⟨htrace, _⟩ := h
        subst htrace
        exact ⟨rfl, List.chain'_singleton _, rfl⟩
    | tools =>
      simp only [runGraph] at h
      rcases hr : runGraph decide registry fuel Node.agent
          (msgs ++ call_tools registry (lastToolCalls msgs)) with ⟨tr, out⟩
      rw [hr] at h
      simp only [Prod.mk.injEq] at h
      obtain ⟨htrace, hout⟩ := h
      obtain ⟨hhead, hchain, hlast⟩ := ih Node.agent _ tr final (by rw [hr, hout])
      subst htrace
      refine ⟨rfl, ?_, ?_⟩
      · rw [List.chain'_cons']
        refine ⟨fun y hy _ => ?_, hchain⟩
        cases tr with
        | nil => simp at hhead
        | cons t ts =>
          simp only [List.head?_cons, Option.mem_some_iff] at hy hhead
          rw [← hy]
          exact Option.some.inj hhead
      · cases tr with
        | nil => simp at hhead
        | cons t ts =>
          rw [List.getLast?_cons_cons]
          exact hlast

theorem runGraph_never_finishes (decide : Decide) (registry : ToolRegistry)
    (halways : ∀ msgs, (decide msgs).2 ≠ []) :
    ∀ (fuel : Nat) (node : Node) (msgs : List Msg),
      ∃ final, (runGraph decide registry fuel node msgs).2 = RunOutcome.recursionError final := by
  intro fuel
  induction fuel with
  | zero => intro node msgs; exact ⟨msgs, rfl⟩
  | succ fuel ih =>
    intro node msgs
    cases node with
    | agent =>
      have hne : ((decide msgs).2).isEmpty = false := by
        rcases hd : (decide msgs).2 with _ | _
        · exact absurd hd (halways msgs)
        · rfl
      simp only [runGraph, should_continue_concat, hne, if_neg Bool.false_ne_true]
      exact ih Node.tools _
    | tools =>
      simp only [runGraph]
      exact ih Node.agent _

theorem findMock_spec (ql : String) :
    ∀ table : List (String × MockFiling),
      (∃ e, e ∈ table ∧ containsStr ql e.1 = true ∧ findMock ql table = some e.2) ∨
      ((∀ e ∈ table, containsStr ql e.1 = false) ∧ findMock ql table = none) := by
  intro table
  induction table with
  | nil => exact Or.inr ⟨by simp, rfl⟩
  | cons kd rest ih =>
    obtain ⟨k, d⟩ := kd
    by_cases hk : containsStr ql k = true
    · exact Or.inl ⟨(k, d), List.mem_cons_self _ _, hk, by simp [findMock, hk]⟩
    · have hk' : containsStr ql k = false := by
        rcases hb : containsStr ql k
        · rfl
        · exact absurd hb hk
      rcases ih with ⟨e, hmem, hc, hf⟩ | ⟨hall, hf⟩
      · exact Or.inl ⟨e, List.mem_cons_of_mem _ hmem, hc, by simp [findMock, hk', hf]⟩
      · refine Or.inr ⟨?_, by simp [findMock, hk', hf]⟩
        intro e he
        rcases List.mem_cons.mp he with rfl | he'
        · exact hk'
        · exact hall e he'

theorem manualParse_ok_fields {c : AnswerContent} {fields : List (String × JValue)}
    {r : CompanyFiling} (hjson : c.json = some (JValue.obj fields))
    (hok : manualParse c = Except.ok r) :
    asStr (used2 fields "filing_type" "contract_name" "Unknown") = Except.ok r.contract_name ∧
    asStr (used1 fields "company_name" "Unknown") = Except.ok r.company_name ∧
    asStr (used2 fields "summary" "description" "No description available") = Except.ok r.description ∧
    asStr (used1 fields "filing_date" "Unknown") = Except.ok r.filing_date ∧
    asStr (used1 fields "document_url" "") = Except.ok r.document_url ∧
    r.source_of_information = (if containsStr r.document_url "sec.gov" then "SEC EDGAR" else "Unknown") ∧
    r.country = (if containsStr r.document_url "sec.gov" then "United States" else "Unknown") ∧
    r.language = "English" ∧
    r.applicable_law = some "Securities Exchange Act of 1934" ∧
    r.relevant_clause = some "N/A" := by
  simp only [manualParse, hjson] at hok
  rcases h1 : asStr (used2 fields "filing_type" "contract_name" "Unknown") with e1 | cn <;>
    rw [h1] at hok
  · simp at hok
  rcases h2 : asStr (used1 fields "company_name" "Unknown") with e2 | comp <;> rw [h2] at hok
  · simp at hok
  rcases h3 : asStr (used2 fields "summary" "description" "No description available")
      with e3 | desc <;> rw [h3] at hok
  · simp at hok
  rcases h4 : asStr (used1 fields "filing_date" "Unknown") with e4 | fd <;> rw [h4] at hok
  · simp at hok
  rcases h5 : asStr (used1 fields "document_url" "") with e5 | durl <;> rw [h5] at hok
  · simp at hok
  simp only [Except.ok.injEq] at hok
  subst hok
  exact ⟨rfl, rfl, rfl, rfl, rfl, rfl, rfl, rfl, rfl, rfl⟩

/-! ## Claim theorems -/

/-- C1 (amended): in a dispatch round, `call_tools` appends exactly one
tool-result turn per request whose name resolves against the registry, in
request order and carrying the request's correlation id; a request whose
name does not resolve is silently dropped (no turn is appended for it). -/
theorem call_tools_results_match_resolved_requests (registry : ToolRegistry)
    (calls : List ToolCall) :
    call_tools registry calls =
      calls.filterMap (fun c =>
        (registry.find? (fun t => t.1 == c.name)).map
          (fun t => Msg.toolResult c.id (t.2 c.args))) ∧
    (call_tools registry calls).length =
      (calls.filter (fun c => (registry.find? (fun t => t.1 == c.name)).isSome)).length := by
  constructor
  · induction calls with
    | nil => rfl
    | cons c rest ih =>
      rcases h : registry.find? (fun t => t.1 == c.name) with _ | t <;>
        simp [call_tools, h, ih]
  · induction calls with
    | nil => rfl
    | cons c rest ih =>
      rcases h : registry.find? (fun t => t.1 == c.name) with _ | t <;>
        simp [call_tools, h, ih, List.filter_cons]

/-- C1 (counterexample): a single request for the unknown tool name
"search_edgar" yields an empty batch of tool-result turns — nothing stating
the tool is unknown is appended. -/
theorem call_tools_drops_unknown_tool :
    call_tools
      (tools none (fun _ => ApiResult.exc "offline") (fun _ => FetchOutcome.failure "offline"))
      [{ name := "search_edgar", args := "Microsoft 10-K", id := "call_1" }] = [] := rfl

/-- C8: the fallback mock search is a pure function of the query: two runs
agree, and the output is the canned summary of a table entry whose company
key occurs in the lowercased query, or the no-match string when no key
does. -/
theorem fallback_search_pure_table_lookup (query : String) :
    fallback_search query = fallback_search query ∧
    ((∃ e, e ∈ mockResponses ∧ containsStr (lowerStr query) e.1 = true ∧
        fallback_search query = foundFilingMsg e.2) ∨
      ((∀ e ∈ mockResponses, containsStr (lowerStr query) e.1 = false) ∧
        fallback_search query = noMatchMsg query)) := by
  refine ⟨rfl, ?_⟩
  rcases findMock_spec (lowerStr query) mockResponses with ⟨e, hm, hc, hf⟩ | ⟨hall, hf⟩
  · exact Or.inl ⟨e, hm, hc, by simp [fallback_search, hf]⟩
  · exact Or.inr ⟨hall, by simp [fallback_search, hf]⟩

/-- C9: in every run of the compiled graph that reaches END, the
executed-node trace never has a "tools" step followed by another "tools"
step — every dispatch is immediately followed by a decide — and the run
never ends on a dispatch step. -/
theorem loop_never_dispatch_to_dispatch (decide : Decide) (registry : ToolRegistry)
    (fuel : Nat) (msgs : List Msg) (trace : List Node) (final : List Msg)
    (h : runGraph decide registry fuel Node.agent msgs = (trace, RunOutcome.finished final)) :
    List.Chain' (fun a b => a = Node.tools → b = Node.agent) trace ∧
    trace.getLast? = some Node.agent :=
  ⟨(runGraph_finished_trace decide registry fuel Node.agent msgs trace final h).2.1,
   (runGraph_finished_trace decide registry fuel Node.agent msgs trace final h).2.2⟩

theorem loop_never_dispatch_to_dispatch_witness :
    List.Chain' (fun a b => a = Node.tools → b = Node.agent) [Node.agent] ∧
    ([Node.agent] : List Node).getLast? = some Node.agent :=
  loop_never_dispatch_to_dispatch (fun _ => ("done", [])) [] 25 [Msg.user "find a filing"]
    [Node.agent] [Msg.user "find a filing", Msg.assistant "done" []] rfl

/-- C4 (amended): when the decision function never stops requesting tools,
the request does not loop forever: the framework's recursion limit is
reached and `search_filing` answers with an HTTP 500 internal-error
response (not with a `success = false` validation-failure envelope). -/
theorem search_filing_limit_http_500 (jsonParse : String → Option JValue) (decide : Decide)
    (registry : ToolRegistry) (query : String) (halways : ∀ msgs, (decide msgs).2 ≠ []) :
    search_filing jsonParse decide registry query =
      HttpOutcome.httpError 500 ("Internal server error: " ++ graphRecursionErrorMsg) := by
  obtain ⟨final, hfin⟩ :=
    runGraph_never_finishes decide registry halways recursionLimit Node.agent [Msg.user query]
  unfold search_filing
  rcases hr : runGraph decide registry recursionLimit Node.agent [Msg.user query] with ⟨tr, out⟩
  rw [hr] at hfin
  have hout : out = RunOutcome.recursionError final := hfin
  rw [hout]

theorem search_filing_limit_http_500_witness :
    search_filing (fun _ => none)
      (fun _ => ("", [{ name := "fallback_search", args := "microsoft", id := "call_1" }]))
      (tools none (fun _ => ApiResult.exc "offline") (fun _ => FetchOutcome.failure "offline"))
      "Find Acme Corp annual report" =
      HttpOutcome.httpError 500 ("Internal server error: " ++ graphRecursionErrorMsg) :=
  search_filing_limit_http_500 _ _ _ _ (fun _ => List.cons_ne_nil _ _)

/-- C4 (counterexample): with no search credential and a decision function
that always requests the fallback tool, the request ends in an HTTP 500
`HTTPException` once the recursion limit is hit, not in any
`FilingResponse` envelope (so in particular not in a `success = false`
validation-failure response). -/
theorem search_filing_limit_not_validation_failure :
    search_filing (fun _ => none)
      (fun _ => ("", [{ name := "fallback_search", args := "find microsoft 10-K", id := "call_9" }]))
      (tools none (fun _ => ApiResult.exc "offline") (fun _ => FetchOutcome.failure "offline"))
      "Find Globex Corporation latest filing" =
      HttpOutcome.httpError 500 ("Internal server error: " ++ graphRecursionErrorMsg) ∧
    isOkEnvelope
      (search_filing (fun _ => none)
        (fun _ => ("", [{ name := "fallback_search", args := "find microsoft 10-K", id := "call_9" }]))
        (tools none (fun _ => ApiResult.exc "offline") (fun _ => FetchOutcome.failure "offline"))
        "Find Globex Corporation latest filing") = false := ⟨rfl, rfl⟩

/-- C3 (amended): with the search credential absent, the general web
search and the Canadian and Brazilian filing searches each return a string
beginning with "Error:", while the US filing search instead falls back to
a non-error message: a hardcoded "Found SEC EDGAR filings" message for one
of its four known companies, or the generic "search attempted" message. -/
theorem serper_absent_degrades_to_error_strings (query : String) :
    strStartsWith (general_web_search none query) "Error:" = true ∧
    strStartsWith (sedar_plus_search none query) "Error:" = true ∧
    strStartsWith (cvm_empresas_net_search none query) "Error:" = true ∧
    ((∃ e, e ∈ secUrls ∧ sec_edgar_search none query =
        "Found SEC EDGAR filings for " ++ titleStr e.1 ++ ". Direct search URL: " ++ e.2) ∨
      sec_edgar_search none query = secManualSearchMsg query) := by
  refine ⟨rfl, rfl, rfl, ?_⟩
  rcases hfw : firstWordRun query with _ | company
  · exact Or.inr (by simp [sec_edgar_search, hfw])
  · rcases hfind : secUrls.find? (fun p => p.1 == lowerStr company) with _ | p
    · exact Or.inr (by simp [sec_edgar_search, hfw, hfind])
    · refine Or.inl ⟨p, List.mem_of_find?_eq_some hfind, ?_⟩
      have hpe : p.1 = lowerStr company := by
        have hp := List.find?_some hfind
        simpa using hp
      simp [sec_edgar_search, hfw, hfind, hpe]

/-- C3 (counterexample): with the credential absent, the US filing search
on "Microsoft 10-K" returns a "Found SEC EDGAR filings" message, not a
string beginning with "Error:". -/
theorem sec_search_without_key_not_error_string :
    sec_edgar_search none "Microsoft 10-K" =
      "Found SEC EDGAR filings for Microsoft. Direct search URL: https://www.sec.gov/cgi-bin/browse-edgar?action=getcompany&CIK=0000789019&type=10-K&dateb=&owner=exclude&count=10" ∧
    strStartsWith (sec_edgar_search none "Microsoft 10-K") "Error:" = false := ⟨rfl, rfl⟩

/-- C7: for a sub-400 text/html response the document fetch returns
exactly the visible text (banned markup pruned) truncated to 8000
characters — so at most 8000 characters, and a prefix of the full visible
text; for a non-text content type, an HTTP error status or a failed
request it returns a string beginning with "Error:"; and the output is a
function of the URL and fetched content alone (same URL, same response,
same output). -/
theorem read_document_truncates_and_errors (fetch : String → FetchOutcome) (url : String) :
    (∀ status ct body, fetch url = FetchOutcome.response status ct body → status < 400 →
        containsStr ct "text/html" = true →
        read_document_from_url fetch url = strTake (visibleText body) 8000 ∧
        (read_document_from_url fetch url).length ≤ 8000 ∧
        (read_document_from_url fetch url).data <+: (visibleText body).data) ∧
    (∀ status ct body, fetch url = FetchOutcome.response status ct body → status < 400 →
        containsStr ct "text/html" = false →
        strStartsWith (read_document_from_url fetch url) "Error:" = true) ∧
    (∀ status ct body, fetch url = FetchOutcome.response status ct body → 400 ≤ status →
        strStartsWith (read_document_from_url fetch url) "Error:" = true) ∧
    (∀ reason, fetch url = FetchOutcome.failure reason →
        strStartsWith (read_document_from_url fetch url) "Error:" = true) ∧
    (∀ fetch2 : String → FetchOutcome, fetch2 url = fetch url →
        read_document_from_url fetch2 url = read_document_from_url fetch url) := by
  refine ⟨?_, ?_, ?_, ?_, ?_⟩
  · intro status ct body hf hlt hct
    have hnot : ¬ 400 ≤ status := Nat.not_le.mpr hlt
    have heq : read_document_from_url fetch url = strTake (visibleText body) 8000 := by
      simp [read_document_from_url, hf, hnot, hct]
    refine ⟨heq, ?_, ?_⟩
    · rw [heq]
      have hlen : (strTake (visibleText body) 8000).length =
          ((visibleText body).data.take 8000).length := rfl
      rw [hlen, List.length_take]
      exact min_le_left _ _
    · rw [heq]
      exact List.take_prefix _ _
  · intro status ct body hf hlt hct
    have hnot : ¬ 400 ≤ status := Nat.not_le.mpr hlt
    have heq : read_document_from_url fetch url =
        "Error: Content type is not text/html. It is " ++ ct ++ ". Cannot process." := by
      simp [read_document_from_url, hf, hnot, hct]
    rw [heq]
    exact startsWith_append_left _ (startsWith_append_left _ rfl)
  · intro status ct body hf hge
    have heq : read_document_from_url fetch url =
        "Error: Could not retrieve URL. Reason: " ++ httpStatusErrorReason status url := by
      simp [read_document_from_url, hf, hge]
    rw [heq]
    exact startsWith_append_left _ rfl
  · intro reason hf
    have heq : read_document_from_url fetch url =
        "Error: Could not retrieve URL. Reason: " ++ reason := by
      simp [read_document_from_url, hf]
    rw [heq]
    exact startsWith_append_left _ rfl
  · intro fetch2 h2
    unfold read_document_from_url
    rw [h2]

/-- C6: when both parsing strategies fail, `/search` returns a well-formed
envelope with `success = false` and an error string that contains the raw
offending text; no exception escapes for this error class (the function is
total and yields the envelope). -/
theorem both_strategies_fail_envelope (c : AnswerContent) (e1 e2 : String)
    (ha : pydanticParse c = Except.error e1) (hb : manualParse c = Except.error e2) :
    parseFinalResponse c =
      { success := false, data := none,
        error := some ("Failed to parse structured output: " ++ e1 ++
          ". Raw response: " ++ c.raw) } ∧
    ∃ err, (parseFinalResponse c).error = some err ∧ containsStr err c.raw = true := by
  have henv : parseFinalResponse c =
      { success := false, data := none,
        error := some ("Failed to parse structured output: " ++ e1 ++
          ". Raw response: " ++ c.raw) } := by
    simp [parseFinalResponse, ha, hb]
  exact ⟨henv, ⟨_, by rw [henv], contains_append_right _ _⟩⟩

theorem both_strategies_fail_envelope_witness :
    parseFinalResponse { raw := "I could not find the filing.", json := none } =
      { success := false, data := none,
        error := some ("Failed to parse structured output: invalid json object in the output. Raw response: I could not find the filing.") } :=
  (both_strategies_fail_envelope { raw := "I could not find the filing.", json := none }
    "invalid json object in the output" "raw response is not valid JSON" rfl rfl).1

/-- C2 (amended): when strategy (a) fails and strategy (b) succeeds,
`/search` returns a success envelope whose record fills fields missing
from the payload with fixed placeholders: "Unknown" for contract_name,
company_name and filing_date, "No description available" for description —
but the empty string (not "Unknown") for document_url, so a returned
record can carry an empty-string required field. -/
theorem validator_fills_missing_fields_with_placeholders (c : AnswerContent)
    (fields : List (String × JValue)) (e1 : String) (r : CompanyFiling)
    (hjson : c.json = some (JValue.obj fields))
    (ha : pydanticParse c = Except.error e1) (hb : manualParse c = Except.ok r) :
    parseFinalResponse c = { success := true, data := some r, error := none } ∧
    (getField fields "filing_type" = none → getField fields "contract_name" = none →
      r.contract_name = "Unknown") ∧
    (getField fields "company_name" = none → r.company_name = "Unknown") ∧
    (getField fields "summary" = none → getField fields "description" = none →
      r.description = "No description available") ∧
    (getField fields "filing_date" = none → r.filing_date = "Unknown") ∧
    (getField fields "document_url" = none → r.document_url = "") := by
  obtain ⟨h1, h2, h3, h4, h5, _⟩ := manualParse_ok_fields hjson hb
  refine ⟨by simp [parseFinalResponse, ha, hb], ?_, ?_, ?_, ?_, ?_⟩
  · intro hft hcn
    simp only [used2, hft, hcn, asStr, Except.ok.injEq] at h1
    exact h1.symm
  · intro hcm
    simp only [used1, hcm, asStr, Except.ok.injEq] at h2
    exact h2.symm
  · intro hsum hdesc
    simp only [used2, hsum, hdesc, asStr, Except.ok.injEq] at h3
    exact h3.symm
  · intro hfd
    simp only [used1, hfd, asStr, Except.ok.injEq] at h4
    exact h4.symm
  · intro hdu
    simp only [used1, hdu, asStr, Except.ok.injEq] at h5
    exact h5.symm

theorem validator_fills_missing_fields_with_placeholders_witness :
    parseFinalResponse
      { raw := "\x7b \x7d", json := some (JValue.obj [("company_name", JValue.str "Acme Inc.")]) } =
      { success := true,
        data := some
          { contract_name := "Unknown", company_name := "Acme Inc.",
            description := "No description available", filing_date := "Unknown",
            source_of_information := "Unknown", country := "Unknown", language := "English",
            applicable_law := some "Securities Exchange Act of 1934",
            relevant_clause := some "N/A", document_url := "" },
        error := none } :=
  (validator_fills_missing_fields_with_placeholders
    { raw := "\x7b \x7d", json := some (JValue.obj [("company_name", JValue.str "Acme Inc.")]) }
    [("company_name", JValue.str "Acme Inc.")] "contract_name: field required"
    { contract_name := "Unknown", company_name := "Acme Inc.",
      description := "No description available", filing_date := "Unknown",
      source_of_information := "Unknown", country := "Unknown", language := "English",
      applicable_law := some "Securities Exchange Act of 1934",
      relevant_clause := some "N/A", document_url := "" }
    rfl rfl rfl).1

/-- C2 (counterexample): on the empty JSON object — every required field
missing — the validator does not report failure and does not fill
document_url with "Unknown": it returns a success envelope whose record
has `document_url = ""`, an empty-string required field. -/
theorem validator_returns_empty_document_url :
    (parseFinalResponse { raw := "\x7b\x7d", json := some (JValue.obj []) }).success = true ∧
    (parseFinalResponse { raw := "\x7b\x7d", json := some (JValue.obj []) }).data =
      some
        { contract_name := "Unknown", company_name := "Unknown",
          description := "No description available", filing_date := "Unknown",
          source_of_information := "Unknown", country := "Unknown", language := "English",
          applicable_law := some "Securities Exchange Act of 1934",
          relevant_clause := some "N/A", document_url := "" } ∧
    (parseFinalResponse { raw := "\x7b\x7d", json := some (JValue.obj []) }).data.map
      (fun filing => filing.document_url) = some "" := ⟨rfl, rfl, rfl⟩

/-- C5 (amended): reconciliation takes contract_name from "filing_type"
whenever that key is present (and from "contract_name" when it is not),
description from "summary" (then "description"); remaining missing fields
are filled with "Unknown" for contract_name, company_name and filing_date,
but with "No description available" for description and with the empty
string for document_url — not uniformly with "Unknown". -/
theorem reconciliation_synonyms_and_defaults (c : AnswerContent)
    (fields : List (String × JValue)) (r : CompanyFiling)
    (hjson : c.json = some (JValue.obj fields)) (hb : manualParse c = Except.ok r) :
    (∀ s, getField fields "filing_type" = some (JValue.str s) → r.contract_name = s) ∧
    (∀ s, getField fields "filing_type" = none →
      getField fields "contract_name" = some (JValue.str s) → r.contract_name = s) ∧
    (∀ s, getField fields "summary" = some (JValue.str s) → r.description = s) ∧
    (∀ s, getField fields "summary" = none →
      getField fields "description" = some (JValue.str s) → r.description = s) ∧
    (getField fields "filing_type" = none → getField fields "contract_name" = none →
      r.contract_name = "Unknown") ∧
    (getField fields "summary" = none → getField fields "description" = none →
      r.description = "No description available") ∧
    (getField fields "company_name" = none → r.company_name = "Unknown") ∧
    (getField fields "filing_date" = none → r.filing_date = "Unknown") ∧
    (getField fields "document_url" = none → r.document_url = "") := by
  obtain ⟨h1, h2, h3, h4, h5, _⟩ := manualParse_ok_fields hjson hb
  refine ⟨?_, ?_, ?_, ?_, ?_, ?_, ?_, ?_, ?_⟩
  · intro s hft
    simp only [used2, hft, asStr, Except.ok.injEq] at h1
    exact h1.symm
  · intro s hft hcn
    simp only [used2, hft, hcn, asStr, Except.ok.injEq] at h1
    exact h1.symm
  · intro s hsum
    simp only [used2, hsum, asStr, Except.ok.injEq] at h3
    exact h3.symm
  · intro s hsum hdesc
    simp only [used2, hsum, hdesc, asStr, Except.ok.injEq] at h3
    exact h3.symm
  · intro hft hcn
    simp only [used2, hft, hcn, asStr, Except.ok.injEq] at h1
    exact h1.symm
  · intro hsum hdesc
    simp only [used2, hsum, hdesc, asStr, Except.ok.injEq] at h3
    exact h3.symm
  · intro hcm
    simp only [used1, hcm, asStr, Except.ok.injEq] at h2
    exact h2.symm
  · intro hfd
    simp only [used1, hfd, asStr, Except.ok.injEq] at h4
    exact h4.symm
  · intro hdu
    simp only [used1, hdu, asStr, Except.ok.injEq] at h5
    exact h5.symm

theorem reconciliation_synonyms_and_defaults_witness :
    ({ contract_name := "Form 10-Q", company_name := "Unknown",
       description := "Quarterly report", filing_date := "Unknown",
       source_of_information := "Unknown", country := "Unknown", language := "English",
       applicable_law := some "Securities Exchange Act of 1934",
       relevant_clause := some "N/A", document_url := "" } : CompanyFiling).contract_name =
      "Form 10-Q" :=
  (reconciliation_synonyms_and_defaults
    { raw := "reconciled payload",
      json := some (JValue.obj
        [("filing_type", JValue.str "Form 10-Q"), ("summary", JValue.str "Quarterly report")]) }
    [("filing_type", JValue.str "Form 10-Q"), ("summary", JValue.str "Quarterly report")]
    { contract_name := "Form 10-Q", company_name := "Unknown",
      description := "Quarterly report", filing_date := "Unknown",
      source_of_information := "Unknown", country := "Unknown", language := "English",
      applicable_law := some "Securities Exchange Act of 1934",
      relevant_clause := some "N/A", document_url := "" }
    rfl rfl).1 "Form 10-Q" rfl

/-- C5 (counterexample): on a payload holding only "filing_type", the
remaining missing fields are not all filled with "Unknown": description
becomes "No description available" and document_url becomes the empty
string. -/
theorem reconciliation_description_default_not_unknown :
    manualParse
      { raw := "mock filing data",
        json := some (JValue.obj [("filing_type", JValue.str "Form 8-K")]) } =
      Except.ok
        { contract_name := "Form 8-K", company_name := "Unknown",
          description := "No description available", filing_date := "Unknown",
          source_of_information := "Unknown", country := "Unknown", language := "English",
          applicable_law := some "Securities Exchange Act of 1934",
          relevant_clause := some "N/A", document_url := "" } ∧
    ("No description available" : String) ≠ "Unknown" ∧ ("" : String) ≠ "Unknown" :=
  ⟨rfl, by decide, by decide⟩

/-- C10: every record built by the reconciliation path has
`language = "English"`, `applicable_law = "Securities Exchange Act of
1934"` and `relevant_clause = "N/A"` regardless of the payload;
`source_of_information = "SEC EDGAR"` together with
`country = "United States"` holds exactly when the record's document_url
contains "sec.gov", both being "Unknown" otherwise; and a missing
document_url is replaced by the empty string. -/
theorem reconciliation_fixed_fields (c : AnswerContent)
    (fields : List (String × JValue)) (r : CompanyFiling)
    (hjson : c.json = some (JValue.obj fields)) (hb : manualParse c = Except.ok r) :
    r.language = "English" ∧
    r.applicable_law = some "Securities Exchange Act of 1934" ∧
    r.relevant_clause = some "N/A" ∧
    ((r.source_of_information = "SEC EDGAR" ∧ r.country = "United States") ↔
      containsStr r.document_url "sec.gov" = true) ∧
    (containsStr r.document_url "sec.gov" = false →
      r.source_of_information = "Unknown" ∧ r.country = "Unknown") ∧
    (getField fields "document_url" = none → r.document_url = "") := by
  obtain ⟨h1, h2, h3, h4, h5, hsrc, hcty, hlang, hlaw, hcl⟩ := manualParse_ok_fields hjson hb
  have hunknown : ∀ hcc : containsStr r.document_url "sec.gov" = false,
      r.source_of_information = "Unknown" ∧ r.country = "Unknown" := by
    intro hcc
    rw [hcc] at hsrc hcty
    simp only [Bool.false_eq_true, if_false] at hsrc hcty
    exact ⟨hsrc, hcty⟩
  refine ⟨hlang, hlaw, hcl, ?_, hunknown, ?_⟩
  · constructor
    · rintro ⟨hs, _⟩
      rcases hbb : containsStr r.document_url "sec.gov" with _ | _
      · obtain ⟨hu, _⟩ := hunknown hbb
        have : ("SEC EDGAR" : String) = "Unknown" := by rw [← hs, hu]
        exact absurd this (by decide)
      · rfl
    · intro hcc
      rw [hcc] at hsrc hcty
      simp only [if_true] at hsrc hcty
      exact ⟨hsrc, hcty⟩
  · intro hdu
    simp only [used1, hdu, asStr, Except.ok.injEq] at h5
    exact h5.symm

theorem reconciliation_fixed_fields_witness :
    ({ contract_name := "Unknown", company_name := "Apple Inc.",
       description := "No description available", filing_date := "Unknown",
       source_of_information := "SEC EDGAR", country := "United States",
       language := "English", applicable_law := some "Securities Exchange Act of 1934",
       relevant_clause := some "N/A",
       document_url := "https://www.sec.gov/Archives/edgar/data/320193/aapl.htm" } :
      CompanyFiling).language = "English" :=
  (reconciliation_fixed_fields
    { raw := "sec payload",
      json := some (JValue.obj
        [("company_name", JValue.str "Apple Inc."),
         ("document_url", JValue.str "https://www.sec.gov/Archives/edgar/data/320193/aapl.htm")]) }
    [("company_name", JValue.str "Apple Inc."),
     ("document_url", JValue.str "https://www.sec.gov/Archives/edgar/data/320193/aapl.htm")]
    { contract_name := "Unknown", company_name := "Apple Inc.",
      description := "No description available", filing_date := "Unknown",
      source_of_information := "SEC EDGAR", country := "United States",
      language := "English", applicable_law := some "Securities Exchange Act of 1934",
      relevant_clause := some "N/A",
      document_url := "https://www.sec.gov/Archives/edgar/data/320193/aapl.htm" }
    rfl rfl).1

end LegalAssistant
